import Mathlib

/-!
Shallow embedding of the K210 DVP (camera capture peripheral) driver from
`src/rust/k210-shared/src/soc/dvp.rs`, together with proofs of the spec's
claims about it.

Modelling conventions:
- Rust `u32`/`u16`/`u8` values are embedded as `Nat`; an explicit `% 2^w`
  appears exactly where the Rust code can overflow (only `xclk_rate * 2`
  in `set_xclk_rate`, modelled with wrapping semantics) or where the Rust
  code narrows with an `as` cast (`reg_addr as u8` becomes `% 256`).
- A Rust division by zero is a panic; functions that can panic return
  `Option`, with `none` for the panic.
- The memory-mapped register block is a structure `DvpState`.  Register
  `modify` keeps unnamed fields; register `write` resets unnamed fields
  to zero, and the embedding spells out all fields at each `write`.
- Hardware interaction through the `sts` register is modelled explicitly:
  SCCB transfers produce a trace of `sccb_transfer` events (a snapshot of
  the byte count and `sccb_ctl` payload at the moment `sccb_start_transfer`
  runs), and the frame state machine `get_image` consumes a list of status
  readings (the values successive polls of `sts` observe) and produces a
  trace of reads and writes, returning `none` if a polling loop never sees
  its bit (the call blocks forever).
-/

/-- Output mode (RGB565 for display, or planar for AI), from `enum output_mode`. -/
inductive output_mode where
  | AI
  | DISPLAY
deriving DecidableEq

/-- SCCB register address width, from `enum sccb_addr_len`. -/
inductive sccb_addr_len where
  | W8
  | W16
deriving DecidableEq

/-- SCCB byte-count variants used by the driver (`BYTE_NUMW`); `NUM0` is the reset value. -/
inductive byte_num_val where
  | NUM0
  | NUM2
  | NUM3
  | NUM4
deriving DecidableEq

/-- The `sccb_cfg` register fields the driver touches. -/
structure sccb_cfg_reg where
  byte_num : byte_num_val
  scl_lcnt : Nat
  scl_hcnt : Nat
  rdata : Nat
deriving DecidableEq

/-- The `sccb_ctl` register fields the driver touches. -/
structure sccb_ctl_reg where
  device_address : Nat
  reg_address : Nat
  wdata_byte0 : Nat
  wdata_byte1 : Nat
deriving DecidableEq

/-- The `cmos_cfg` register fields the driver touches. -/
structure cmos_cfg_reg where
  clk_div : Nat
  clk_enable : Bool
  power_down : Bool
  reset : Bool
deriving DecidableEq

/-- The `dvp_cfg` register fields the driver touches. -/
structure dvp_cfg_reg where
  format : Nat
  burst_size_4beats : Bool
  href_burst_num : Nat
  line_num : Nat
  ai_output_enable : Bool
  display_output_enable : Bool
  auto_enable : Bool
  start_int_enable : Bool
  finish_int_enable : Bool
deriving DecidableEq

/-- The register block acted on by every driver method (`pac::DVP` registers). -/
structure DvpState where
  sccb_cfg : sccb_cfg_reg
  sccb_ctl : sccb_ctl_reg
  cmos_cfg : cmos_cfg_reg
  dvp_cfg : dvp_cfg_reg
deriving DecidableEq

/-- A reset-state register block, used as a concrete starting state in tests. -/
def st0 : DvpState :=
  { sccb_cfg := { byte_num := byte_num_val.NUM0, scl_lcnt := 0, scl_hcnt := 0, rdata := 0 }
    sccb_ctl := { device_address := 0, reg_address := 0, wdata_byte0 := 0, wdata_byte1 := 0 }
    cmos_cfg := { clk_div := 0, clk_enable := false, power_down := false, reset := false }
    dvp_cfg := { format := 0, burst_size_4beats := false, href_burst_num := 0, line_num := 0,
                 ai_output_enable := false, display_output_enable := false,
                 auto_enable := false, start_int_enable := false, finish_int_enable := false } }

/-- Embedding of `fn reset(&self)`: power-down pulse then reset pulse on `cmos_cfg`
(the `usleep` delays have no register effect and are not modelled). -/
def dvp_reset (st : DvpState) : DvpState :=
  let s1 := { st with cmos_cfg := { st.cmos_cfg with power_down := true } }
  let s2 := { s1 with cmos_cfg := { s1.cmos_cfg with power_down := false } }
  let s3 := { s2 with cmos_cfg := { s2.cmos_cfg with reset := false } }
  { s3 with cmos_cfg := { s3.cmos_cfg with reset := true } }

/-- Embedding of `pub fn sccb_set_clk_rate(&self, clk_rate: u32) -> u32`.
`apb1` is `sysctl::clock_get_freq(APB1)` and `dvpf` is
`sysctl::clock_get_freq(DVP)` (external clock-service reads).  Returns the
register state together with the returned rate; `none` models the Rust
division-by-zero panic (`clk_rate = 0`, or `v_period_clk_cnt = 0` in the
final `dvpf / (v_period_clk_cnt * 2)`). -/
def sccb_set_clk_rate (apb1 dvpf : Nat) (st : DvpState) (clk_rate : Nat) :
    DvpState × Option Nat :=
  if clk_rate = 0 then (st, none)
  else
    let v_period_clk_cnt := apb1 / clk_rate / 2
    if 255 < v_period_clk_cnt then (st, some 0)
    else
      let st' := { st with sccb_cfg := { st.sccb_cfg with scl_lcnt := v_period_clk_cnt,
                                                          scl_hcnt := v_period_clk_cnt } }
      if v_period_clk_cnt = 0 then (st', none)
      else (st', some (dvpf / (v_period_clk_cnt * 2)))

/-- Embedding of `pub fn set_xclk_rate(&self, xclk_rate: u32) -> u32`.
`apb1` is `sysctl::clock_get_freq(APB1)`.  The multiplication `xclk_rate * 2`
is `u32` arithmetic and wraps modulo `2^32`; `none` models the Rust
division-by-zero panic when `xclk_rate * 2 = 0` inside the taken branch. -/
def set_xclk_rate (apb1 : Nat) (st : DvpState) (xclk_rate : Nat) :
    DvpState × Option Nat :=
  let d := xclk_rate * 2 % 4294967296
  if apb1 > d then
    if d = 0 then (st, none)
    else
      let v_period := min (apb1 / d - 1) 255
      let st' := dvp_reset { st with cmos_cfg := { st.cmos_cfg with clk_div := v_period,
                                                                    clk_enable := true } }
      (st', some (apb1 / ((v_period + 1) * 2)))
  else
    let v_period := 0
    let st' := dvp_reset { st with cmos_cfg := { st.cmos_cfg with clk_div := v_period,
                                                                  clk_enable := true } }
    (st', some (apb1 / ((v_period + 1) * 2)))

/-- One SCCB bus transaction, as issued by `sccb_start_transfer`: a snapshot of
the byte count (`sccb_cfg.byte_num`) and the `sccb_ctl` payload in force when
the transfer is started.  The `sts`-register handshake (`sccb_en` strobe and
busy-wait) has no observable effect beyond issuing the transfer and is
represented by the event itself. -/
structure sccb_transfer where
  byte_num : byte_num_val
  ctl : sccb_ctl_reg
deriving DecidableEq

/-- Embedding of `pub fn sccb_send_data(&self, dev_addr: u8, reg_addr: u16, reg_data: u8)`.
Returns the new register state and the list of transfers issued.  `sccb_ctl.write`
resets the fields it does not name to zero; `reg_addr as u8` is `% 256` and
`(reg_addr >> 8) as u8` is `/ 256 % 256`. -/
def sccb_send_data (len : sccb_addr_len) (st : DvpState)
    (dev_addr reg_addr reg_data : Nat) : DvpState × List sccb_transfer :=
  match len with
  | sccb_addr_len.W8 =>
    let st1 := { st with sccb_cfg := { st.sccb_cfg with byte_num := byte_num_val.NUM3 },
                         sccb_ctl := { device_address := dev_addr ||| 1,
                                       reg_address := reg_addr % 256,
                                       wdata_byte0 := reg_data,
                                       wdata_byte1 := 0 } }
    (st1, [{ byte_num := st1.sccb_cfg.byte_num, ctl := st1.sccb_ctl }])
  | sccb_addr_len.W16 =>
    let st1 := { st with sccb_cfg := { st.sccb_cfg with byte_num := byte_num_val.NUM4 },
                         sccb_ctl := { device_address := dev_addr ||| 1,
                                       reg_address := reg_addr / 256 % 256,
                                       wdata_byte0 := reg_addr % 256,
                                       wdata_byte1 := reg_data } }
    (st1, [{ byte_num := st1.sccb_cfg.byte_num, ctl := st1.sccb_ctl }])

/-- Embedding of `pub fn sccb_receive_data(&self, dev_addr: u8, reg_addr: u16) -> u8`.
`rdata_hw` is the byte the sensor returns: the hardware deposits it in
`sccb_cfg.rdata` when the read-strobe transfer completes, and the function
then reads that field.  Returns the new register state, the transfers issued
in order, and the returned byte. -/
def sccb_receive_data (len : sccb_addr_len) (st : DvpState)
    (dev_addr reg_addr rdata_hw : Nat) : DvpState × List sccb_transfer × Nat :=
  let st1 :=
    match len with
    | sccb_addr_len.W8 =>
      { st with sccb_cfg := { st.sccb_cfg with byte_num := byte_num_val.NUM2 },
                sccb_ctl := { device_address := dev_addr ||| 1,
                              reg_address := reg_addr % 256,
                              wdata_byte0 := 0,
                              wdata_byte1 := 0 } }
    | sccb_addr_len.W16 =>
      { st with sccb_cfg := { st.sccb_cfg with byte_num := byte_num_val.NUM3 },
                sccb_ctl := { device_address := dev_addr ||| 1,
                              reg_address := reg_addr / 256 % 256,
                              wdata_byte0 := reg_addr % 256,
                              wdata_byte1 := 0 } }
  let t1 : sccb_transfer := { byte_num := st1.sccb_cfg.byte_num, ctl := st1.sccb_ctl }
  let st2 := { st1 with sccb_ctl := { device_address := dev_addr,
                                      reg_address := 0,
                                      wdata_byte0 := 0,
                                      wdata_byte1 := 0 } }
  let t2 : sccb_transfer := { byte_num := st2.sccb_cfg.byte_num, ctl := st2.sccb_ctl }
  let st3 := { st2 with sccb_cfg := { st2.sccb_cfg with rdata := rdata_hw % 256 } }
  (st3, [t1, t2], st3.sccb_cfg.rdata)

/-- Embedding of `pub fn set_image_size(&self, width: u16, height: u16)`.
Reads the burst bit previously configured in `dvp_cfg`; `none` models the
Rust `assert!` aborts (`burst_num < 256`, `height < 1024`). -/
def set_image_size (st : DvpState) (width height : Nat) : Option DvpState :=
  let burst_num := if st.dvp_cfg.burst_size_4beats then width / 8 / 4 else width / 8 / 1
  if 256 ≤ burst_num then none
  else if 1024 ≤ height then none
  else some { st with dvp_cfg := { st.dvp_cfg with href_burst_num := burst_num,
                                                   line_num := height } }

/-- Embedding of `pub fn set_output_enable(&self, index: output_mode, enable: bool)`. -/
def set_output_enable (st : DvpState) (index : output_mode) (enable : Bool) : DvpState :=
  match index with
  | output_mode.AI =>
    { st with dvp_cfg := { st.dvp_cfg with ai_output_enable := enable } }
  | output_mode.DISPLAY =>
    { st with dvp_cfg := { st.dvp_cfg with display_output_enable := enable } }

/-- A value observed by one polling read of the `sts` register (only the two
frame bits are inspected by the frame state machine). -/
structure sts_read where
  frame_start : Bool
  frame_finish : Bool
deriving DecidableEq

/-- A value written to the `sts` register by `sts.write`: all fields the driver
ever sets, with every unnamed field reset to zero by the full-register write. -/
structure sts_write where
  sccb_en : Bool
  sccb_en_we : Bool
  frame_start : Bool
  frame_start_we : Bool
  frame_finish : Bool
  frame_finish_we : Bool
  dvp_en : Bool
  dvp_en_we : Bool
deriving DecidableEq

/-- The `sts.write` acknowledging frame start (`frame_start` + `frame_start_we`). -/
def write_ack_start : sts_write :=
  { sccb_en := false, sccb_en_we := false,
    frame_start := true, frame_start_we := true,
    frame_finish := false, frame_finish_we := false,
    dvp_en := false, dvp_en_we := false }

/-- The combined `sts.write` in `get_image`: acknowledge frame finish,
acknowledge frame start, and enable conversion, in a single register write. -/
def write_combined : sts_write :=
  { sccb_en := false, sccb_en_we := false,
    frame_start := true, frame_start_we := true,
    frame_finish := true, frame_finish_we := true,
    dvp_en := true, dvp_en_we := true }

/-- One observable event of the frame state machine: a polling read of `sts`
(with the value observed) or a write to `sts`. -/
inductive dvp_event where
  | readSts : sts_read → dvp_event
  | writeSts : sts_write → dvp_event
deriving DecidableEq

/-- Embedding of a `while !bit {}` polling loop: consume readings until one
satisfies `p`, returning the reads performed and the remaining input, or
`none` when the input is exhausted (the loop would spin forever). -/
def waitSts (p : sts_read → Bool) : List sts_read → Option (List dvp_event × List sts_read)
  | [] => none
  | s :: rest =>
    if p s then some ([dvp_event.readSts s], rest)
    else
      match waitSts p rest with
      | none => none
      | some (es, r) => some (dvp_event.readSts s :: es, r)

/-- Embedding of `pub fn get_image(&self)`: wait for `frame_start`, acknowledge
it, wait for `frame_start` again, issue the combined acknowledge+enable write,
then wait for `frame_finish`.  The input list is the sequence of `sts` values
the successive polls observe; the result is the full event trace, or `none`
if some polling loop never completes (the call never returns). -/
def get_image (input : List sts_read) : Option (List dvp_event) :=
  match waitSts (fun s => s.frame_start) input with
  | none => none
  | some (e1, r1) =>
    match waitSts (fun s => s.frame_start) r1 with
    | none => none
    | some (e2, r2) =>
      match waitSts (fun s => s.frame_finish) r2 with
      | none => none
      | some (e3, _) =>
        some (e1 ++ [dvp_event.writeSts write_ack_start] ++
              e2 ++ [dvp_event.writeSts write_combined] ++ e3)

/-- A register block whose burst bit (`dvp_cfg.burst_size_4beats`) is set, as
left by `enable_burst`; the concrete starting state for the burst-mode
geometry test cases. -/
def stBurst : DvpState :=
  { st0 with dvp_cfg := { st0.dvp_cfg with burst_size_4beats := true } }

/-- An `sts` poll result with the frame-start flag set. -/
def sts_start : sts_read := { frame_start := true, frame_finish := false }

/-- An `sts` poll result with the frame-finish flag set. -/
def sts_finish : sts_read := { frame_start := false, frame_finish := true }

/-- C1 counterexample: with bus clock `F = 100` and target `X = 50` we have
`F ≤ 2X`, and the claim says `set_xclk_rate` returns 0; the code programs
divider period 0 and returns `F / 2 = 50`, not 0. -/
theorem c1_counterexample : (set_xclk_rate 100 st0 50).2 ≠ some 0 := by decide

/-- C1 (amended): for every APB1 frequency `F` and every target rate `X`,
with `d = 2X mod 2^32` the wrapping `u32` product, `set_xclk_rate` returns
`F / 2` when `F ≤ d` (divider period 0); panics on division by zero when
`F > d` with `d = 0` (which happens at `X = 0` and at `X = 2^31` whenever
`F > 0`); and otherwise returns `F / ((min(F/d - 1, 255) + 1) * 2)` with
integer truncation. -/
theorem c1_set_xclk_rate_return (apb1 X : Nat) (st : DvpState) :
    (set_xclk_rate apb1 st X).2 =
      if apb1 ≤ X * 2 % 4294967296 then some (apb1 / 2)
      else if X * 2 % 4294967296 = 0 then none
      else some (apb1 / ((min (apb1 / (X * 2 % 4294967296) - 1) 255 + 1) * 2)) := by
  unfold set_xclk_rate
  by_cases hgt : apb1 > X * 2 % 4294967296
  · rw [if_pos hgt, if_neg (not_le.mpr hgt)]
    by_cases hz : X * 2 % 4294967296 = 0
    · rw [if_pos hz, if_pos hz]
    · rw [if_neg hz, if_neg hz]
  · rw [if_neg hgt, if_pos (not_lt.mp hgt)]

/-- C4 counterexample: at `F = 100`, `R = 100` (so `R > 0` and
`F/R/2 = 0 ≤ 255`), the claim says the call returns
`pixel_clock_freq / (D * 2)` with `D = 0`; the code instead panics on the
division by zero (`none`), after having written the registers. -/
theorem c4_counterexample :
    (sccb_set_clk_rate 100 999 st0 100).2 ≠ some (999 / (100 / 100 / 2 * 2)) := by
  decide

/-- C4 (amended): for every APB1 frequency `F`, DVP frequency `dvpf`, prior
state and rate `R` with `1 ≤ F/R/2 ≤ 255`, `sccb_set_clk_rate` programs the
truncated divisor `D = F/R/2` into both `scl_lcnt` and `scl_hcnt` and returns
`dvpf / (D * 2)` — the divisor uses the APB1 (bus-clock) domain, the achieved
rate the DVP (pixel-clock) domain.  When `D = 0` the registers are still
written but the call panics on division by zero instead of returning. -/
theorem c4_sccb_set_clk_rate_in_range (apb1 dvpf R : Nat) (st : DvpState)
    (h1 : 1 ≤ apb1 / R / 2) (h2 : apb1 / R / 2 ≤ 255) :
    sccb_set_clk_rate apb1 dvpf st R =
      ({ st with sccb_cfg := { st.sccb_cfg with scl_lcnt := apb1 / R / 2,
                                                scl_hcnt := apb1 / R / 2 } },
       some (dvpf / (apb1 / R / 2 * 2))) := by
  have hR : ¬ R = 0 := by
    rintro rfl
    simp at h1
  unfold sccb_set_clk_rate
  rw [if_neg hR, if_neg (by omega : ¬ 255 < apb1 / R / 2),
      if_neg (by omega : ¬ apb1 / R / 2 = 0)]

/-- C4 witness: instantiation at `F = 1000`, `R = 2`, `dvpf = 48000000`
(divisor `D = 250`, achieved rate `48000000 / 500 = 96000`). -/
theorem c4_witness :
    1 ≤ 1000 / 2 / 2 ∧ 1000 / 2 / 2 ≤ 255 ∧
    sccb_set_clk_rate 1000 48000000 st0 2 =
      ({ st0 with sccb_cfg := { st0.sccb_cfg with scl_lcnt := 1000 / 2 / 2,
                                                  scl_hcnt := 1000 / 2 / 2 } },
       some (48000000 / (1000 / 2 / 2 * 2))) :=
  ⟨by decide, by decide,
   c4_sccb_set_clk_rate_in_range 1000 48000000 2 st0 (by decide) (by decide)⟩

/-- C5: for every APB1 frequency `F`, DVP frequency, prior state and rate
`R > 0` with `F/R/2 > 255`, `sccb_set_clk_rate` returns 0 and leaves the
entire register state unchanged (the call is rejected before any register
write). -/
theorem c5_sccb_set_clk_rate_reject (apb1 dvpf R : Nat) (st : DvpState)
    (hR : 0 < R) (h : 255 < apb1 / R / 2) :
    sccb_set_clk_rate apb1 dvpf st R = (st, some 0) := by
  unfold sccb_set_clk_rate
  rw [if_neg (by omega : ¬ R = 0), if_pos h]

/-- C5 witness: instantiation at `F = 10000`, `R = 1` (divisor 5000 > 255). -/
theorem c5_witness :
    (0 : Nat) < 1 ∧ 255 < 10000 / 1 / 2 ∧
    sccb_set_clk_rate 10000 7 st0 1 = (st0, some 0) :=
  ⟨by decide, by decide, c5_sccb_set_clk_rate_reject 10000 7 1 st0 (by decide) (by decide)⟩

/-- C6: `set_image_size` computes `burst_count = width/8/4` when the
previously configured burst bit is set and `width/8/1` otherwise, aborts
exactly when `burst_count ≥ 256` or `height ≥ 1024`, and otherwise programs
the burst-count and line-count fields; with burst enabled, 8192×100 fails
while 8160×100 succeeds with burst count 255, and without burst, 2040×1023
succeeds while 2040×1024 fails. -/
theorem c6_set_image_size_spec :
    (∀ st w h, set_image_size st w h =
      if 256 ≤ (if st.dvp_cfg.burst_size_4beats then w / 8 / 4 else w / 8 / 1) ∨ 1024 ≤ h
      then none
      else some { st with dvp_cfg := { st.dvp_cfg with
             href_burst_num := if st.dvp_cfg.burst_size_4beats then w / 8 / 4 else w / 8 / 1,
             line_num := h } }) ∧
    set_image_size stBurst 8192 100 = none ∧
    (set_image_size stBurst 8160 100).map (fun s => s.dvp_cfg.href_burst_num) = some 255 ∧
    (set_image_size st0 2040 1023).map
      (fun s => (s.dvp_cfg.href_burst_num, s.dvp_cfg.line_num)) = some (255, 1023) ∧
    set_image_size st0 2040 1024 = none := by
  refine ⟨?_, by decide, by decide, by decide, by decide⟩
  intro st w h
  by_cases hb : st.dvp_cfg.burst_size_4beats = true
  · simp only [set_image_size, hb, if_true]
    split_ifs <;> first | rfl | omega
  · simp only [set_image_size, hb, Bool.false_eq_true, if_false]
    split_ifs <;> first | rfl | omega

/-- C8: `set_output_enable` is idempotent — for every mode and enable flag,
calling it twice yields the same register state as calling it once. -/
theorem c8_set_output_enable_idem (st : DvpState) (index : output_mode) (enable : Bool) :
    set_output_enable (set_output_enable st index enable) index enable =
      set_output_enable st index enable := by
  cases index <;> rfl

/-- C9: both clock-rate setters divide by the caller-supplied rate with no
guard: `sccb_set_clk_rate` with rate 0 always panics, and `set_xclk_rate`
with rate 0 panics whenever the APB1 frequency is nonzero — so a rate
greater than zero is a necessary precondition for either call to return. -/
theorem c9_division_guard :
    (∀ apb1 dvpf st, (sccb_set_clk_rate apb1 dvpf st 0).2 = none) ∧
    (∀ apb1 st, 0 < apb1 → (set_xclk_rate apb1 st 0).2 = none) := by
  constructor
  · intro apb1 dvpf st
    simp [sccb_set_clk_rate]
  · intro apb1 st h
    simp [set_xclk_rate, h]

/-- C9 witness: `set_xclk_rate` with APB1 frequency 8 and rate 0 panics. -/
theorem c9_witness : (0 : Nat) < 8 ∧ (set_xclk_rate 8 st0 0).2 = none :=
  ⟨by decide, c9_division_guard.2 8 st0 (by decide)⟩

/-- C2 counterexample: with 8-bit addressing, an even device address 2, and
register 0, the read-strobe transfer carries device-address byte 2, not
`2 ||| 1 = 3` — the claim that both transfers set the low bit fails. -/
theorem c2_counterexample :
    ((sccb_receive_data sccb_addr_len.W8 st0 2 0 0).2.1.map
       (fun t => t.ctl.device_address)) ≠ [2 ||| 1, 2 ||| 1] := by
  decide

/-- C2 (amended): for every addressing width, device address, register
address and received byte, the setup-phase transfer writes the
device-address byte with its low bit set (`dev_addr ||| 1`, the same marking
as the write path), while the read-strobe transfer writes the device address
unmodified, without setting the low bit. -/
theorem c2_device_address_marking (len : sccb_addr_len) (st : DvpState)
    (dev_addr reg_addr rdata_hw : Nat) :
    ((sccb_receive_data len st dev_addr reg_addr rdata_hw).2.1.map
       (fun t => t.ctl.device_address)) = [dev_addr ||| 1, dev_addr] := by
  cases len <;> rfl

/-- C7: with 8-bit addressing, `sccb_receive_data` issues a 2-byte setup
transfer (byte count `NUM2`) carrying the device address and register
address, then a read-strobe transfer whose `sccb_ctl` write populates only
the device-address byte (register-address and data bytes zero, no new byte
count written), and returns exactly the byte present in `sccb_cfg.rdata` at
strobe completion. -/
theorem c7_sccb_receive_data_w8 (st : DvpState) (dev_addr reg_addr rdata_hw : Nat) :
    (sccb_receive_data sccb_addr_len.W8 st dev_addr reg_addr rdata_hw).2.1 =
      [{ byte_num := byte_num_val.NUM2,
         ctl := { device_address := dev_addr ||| 1, reg_address := reg_addr % 256,
                  wdata_byte0 := 0, wdata_byte1 := 0 } },
       { byte_num := byte_num_val.NUM2,
         ctl := { device_address := dev_addr, reg_address := 0,
                  wdata_byte0 := 0, wdata_byte1 := 0 } }] ∧
    (sccb_receive_data sccb_addr_len.W8 st dev_addr reg_addr rdata_hw).2.2 =
      ((sccb_receive_data sccb_addr_len.W8 st dev_addr reg_addr rdata_hw).1).sccb_cfg.rdata :=
  ⟨rfl, rfl⟩

/-- C10: in 8-bit addressing mode, both SCCB operations truncate the 16-bit
register address to its low 8 bits: their entire observable behaviour
coincides with the behaviour at `reg_addr % 256`, and the transfer carries
`reg_addr % 256` as the register-address byte — addresses at or above 256
lose their high byte silently instead of being rejected. -/
theorem c10_w8_reg_addr_truncation (st : DvpState)
    (dev_addr reg_addr reg_data rdata_hw : Nat) :
    sccb_send_data sccb_addr_len.W8 st dev_addr reg_addr reg_data =
      sccb_send_data sccb_addr_len.W8 st dev_addr (reg_addr % 256) reg_data ∧
    sccb_receive_data sccb_addr_len.W8 st dev_addr reg_addr rdata_hw =
      sccb_receive_data sccb_addr_len.W8 st dev_addr (reg_addr % 256) rdata_hw ∧
    ((sccb_send_data sccb_addr_len.W8 st dev_addr reg_addr reg_data).2.map
       (fun t => t.ctl.reg_address)) = [reg_addr % 256] := by
  have hm : reg_addr % 256 % 256 = reg_addr % 256 := Nat.mod_mod_of_dvd _ dvd_rfl
  refine ⟨?_, ?_, rfl⟩
  · simp [sccb_send_data, hm]
  · simp [sccb_receive_data, hm]

/-- Helper: a completed polling loop observed some reading satisfying its
predicate. -/
theorem waitSts_mem (p : sts_read → Bool) :
    ∀ (l : List sts_read) (es : List dvp_event) (r : List sts_read),
      waitSts p l = some (es, r) → ∃ s, s ∈ l ∧ p s = true := by
  intro l
  induction l with
  | nil => intro es r hw; simp [waitSts] at hw
  | cons a t ih =>
    intro es r hw
    by_cases hp : p a = true
    · exact ⟨a, List.mem_cons_self a t, hp⟩
    · simp only [waitSts, if_neg hp] at hw
      rcases h2 : waitSts p t with _ | ⟨es', r'⟩
      · rw [h2] at hw
        simp at hw
      · obtain ⟨s, hs, hps⟩ := ih es' r' h2
        exact ⟨s, List.mem_cons_of_mem a hs, hps⟩

/-- Helper: the readings left over by a completed polling loop come from the
original input. -/
theorem waitSts_rest_subset (p : sts_read → Bool) :
    ∀ (l : List sts_read) (es : List dvp_event) (r : List sts_read),
      waitSts p l = some (es, r) → ∀ s, s ∈ r → s ∈ l := by
  intro l
  induction l with
  | nil => intro es r hw; simp [waitSts] at hw
  | cons a t ih =>
    intro es r hw s hs
    by_cases hp : p a = true
    · simp only [waitSts, if_pos hp, Option.some.injEq, Prod.mk.injEq] at hw
      exact List.mem_cons_of_mem a (hw.2 ▸ hs)
    · simp only [waitSts, if_neg hp] at hw
      rcases h2 : waitSts p t with _ | ⟨es', r'⟩
      · rw [h2] at hw
        simp at hw
      · rw [h2] at hw
        simp only [Option.some.injEq, Prod.mk.injEq] at hw
        exact List.mem_cons_of_mem a (ih es' r' h2 s (hw.2 ▸ hs))

/-- C3: `get_image` run against the status sequence with edges
[start, start, finish] produces exactly the trace: read start, acknowledge
start, read start, one combined acknowledge-finish/acknowledge-start/enable
write, read finish — so exactly one combined write occurs, between the
second start edge and the finish wait; with no finish edge the call never
returns; and every completed run observed a reading with the finish flag
set before returning. -/
theorem c3_get_image_spec :
    get_image [sts_start, sts_start, sts_finish] =
      some [dvp_event.readSts sts_start, dvp_event.writeSts write_ack_start,
            dvp_event.readSts sts_start, dvp_event.writeSts write_combined,
            dvp_event.readSts sts_finish] ∧
    ([dvp_event.readSts sts_start, dvp_event.writeSts write_ack_start,
      dvp_event.readSts sts_start, dvp_event.writeSts write_combined,
      dvp_event.readSts sts_finish].filter
        (fun e => decide (e = dvp_event.writeSts write_combined))).length = 1 ∧
    get_image [sts_start, sts_start] = none ∧
    (∀ input es, get_image input = some es →
      ∃ s, s ∈ input ∧ s.frame_finish = true) := by
  refine ⟨by decide, by decide, by decide, ?_⟩
  intro input es hrun
  unfold get_image at hrun
  split at hrun
  · simp at hrun
  next e1 r1 h1 =>
    split at hrun
    · simp at hrun
    next e2 r2 h2 =>
      split at hrun
      · simp at hrun
      next e3 r3 h3 =>
        obtain ⟨s, hs, hps⟩ := waitSts_mem _ r2 e3 r3 h3
        have hs1 : s ∈ r1 := waitSts_rest_subset _ r1 e2 r2 h2 s hs
        have hs0 : s ∈ input := waitSts_rest_subset _ input e1 r1 h1 s hs1
        exact ⟨s, hs0, hps⟩

/-- C3 witness: the completed run on [start, start, finish] observed a
reading with the finish flag set. -/
theorem c3_witness :
    ∃ s, s ∈ [sts_start, sts_start, sts_finish] ∧ s.frame_finish = true :=
  c3_get_image_spec.2.2.2 [sts_start, sts_start, sts_finish]
    [dvp_event.readSts sts_start, dvp_event.writeSts write_ack_start,
     dvp_event.readSts sts_start, dvp_event.writeSts write_combined,
     dvp_event.readSts sts_finish] (by decide)
